import Mathlib

/-!
Shallow embedding of the Icare dashboard's client state layer
(`src/ui/store/slices/*.ts`) and the threat-map mock data generator
(`src/ui/pages/ThreatMap.tsx`), with theorems checking the natural-language
specification against it.

JavaScript `Record<string, number>` objects are modelled as insertion-ordered
association lists; the `if (m[k]) m[k]++ else m[k] = 1` idiom is modelled with
its truthiness semantics (a stored 0 is falsy and is overwritten with 1).
TypeScript string-literal unions become inductive types; nullable fields
become `Option`.
-/

namespace Icare

/-! ## JS object model: `Record<string, number>` -/

/-- A JS object used as a counter map: insertion-ordered key/value list. -/
def StrMap : Type := List (String × Nat)

instance : DecidableEq StrMap := by
  unfold StrMap
  infer_instance

instance : Membership (String × Nat) StrMap := by
  unfold StrMap
  infer_instance

instance : Repr StrMap := by
  unfold StrMap
  infer_instance

/-- Property read `m[k]`: `some v` when the key is present, `none` (undefined)
otherwise. -/
def recGet (m : StrMap) (k : String) : Option Nat :=
  ((m : List (String × Nat)).find? (fun p => p.1 == k)).map (fun p => p.2)

/-- Property write `m[k] = v`: overwrite in place, or append a new key. -/
def recSet (m : StrMap) (k : String) (v : Nat) : StrMap :=
  match m with
  | [] => [(k, v)]
  | (k', v') :: rest =>
      if k' == k then (k, v) :: rest else (k', v') :: recSet rest k v

/-- The idiom `if (m[k]) { m[k]++ } else { m[k] = 1 }`: a missing key, and a
stored 0 (falsy), both become 1; any other stored value is incremented. -/
def recIncr (m : StrMap) (k : String) : StrMap :=
  match recGet m k with
  | some v => if v = 0 then recSet m k 1 else recSet m k (v + 1)
  | none => recSet m k 1

/-- Sum of all stored values of the counter map. -/
def sumVals (m : StrMap) : Nat :=
  ((m : List (String × Nat)).map (fun p => p.2)).sum

theorem recGet_nil (k : String) : recGet ([] : StrMap) k = none := rfl

theorem recGet_cons (k' : String) (v' : Nat) (rest : List (String × Nat))
    (k : String) :
    recGet (((k', v') :: rest : List (String × Nat)) : StrMap) k =
      if k' == k then some v' else recGet (rest : StrMap) k := by
  unfold recGet
  by_cases h : k' == k <;> simp [List.find?, h]

theorem recSet_cons_eq (k : String) (v' v : Nat) (rest : List (String × Nat)) :
    recSet (((k, v') :: rest : List (String × Nat)) : StrMap) k v =
      ((k, v) :: rest : List (String × Nat)) := by
  unfold recSet
  simp

theorem recSet_cons_ne (k' k : String) (v' v : Nat) (rest : List (String × Nat))
    (h : ¬ (k' == k) = true) :
    recSet (((k', v') :: rest : List (String × Nat)) : StrMap) k v =
      ((k', v') :: (recSet (rest : StrMap) k v) : List (String × Nat)) := by
  conv_lhs => unfold recSet
  simp [h]

theorem recIncr_cons_eq (k : String) (v' : Nat) (rest : List (String × Nat)) :
    recIncr (((k, v') :: rest : List (String × Nat)) : StrMap) k =
      ((k, if v' = 0 then 1 else v' + 1) :: rest : List (String × Nat)) := by
  have hg : recGet (((k, v') :: rest : List (String × Nat)) : StrMap) k
      = some v' := by
    rw [recGet_cons]
    simp
  unfold recIncr
  rw [hg]
  by_cases hv : v' = 0
  · simp only [hv, if_true]
    exact recSet_cons_eq k 0 1 rest
  · simp only [hv, if_false]
    exact recSet_cons_eq k v' (v' + 1) rest

theorem recIncr_cons_ne (k' k : String) (v' : Nat) (rest : List (String × Nat))
    (h : ¬ (k' == k) = true) :
    recIncr (((k', v') :: rest : List (String × Nat)) : StrMap) k =
      ((k', v') :: (recIncr (rest : StrMap) k) : List (String × Nat)) := by
  have hg : recGet (((k', v') :: rest : List (String × Nat)) : StrMap) k
      = recGet (rest : StrMap) k := by
    rw [recGet_cons]
    simp [h]
  unfold recIncr
  rw [hg]
  cases hr : recGet (rest : StrMap) k with
  | none => exact recSet_cons_ne k' k v' 1 rest h
  | some v =>
      by_cases hv : v = 0
      · simp only [hv, if_true]
        exact recSet_cons_ne k' k v' 1 rest h
      · simp only [hv, if_false]
        exact recSet_cons_ne k' k v' (v + 1) rest h

theorem sumVals_cons (k : String) (v : Nat) (rest : List (String × Nat)) :
    sumVals (((k, v) :: rest : List (String × Nat)) : StrMap) =
      v + sumVals (rest : StrMap) := by
  unfold sumVals
  simp

/-- Each application of the counter-increment idiom grows the sum of values by
exactly one (also when the stored value was a falsy 0, since it becomes 1). -/
theorem sumVals_recIncr (m : StrMap) (k : String) :
    sumVals (recIncr m k) = sumVals m + 1 := by
  induction m with
  | nil => rfl
  | cons p rest ih =>
      obtain ⟨k', v'⟩ := p
      by_cases h : (k' == k) = true
      · have hk : k' = k := by simpa using h
        subst hk
        rw [recIncr_cons_eq, sumVals_cons, sumVals_cons]
        by_cases hv : v' = 0 <;> simp [hv] <;> omega
      · rw [recIncr_cons_ne k' k v' rest h, sumVals_cons, sumVals_cons, ih]
        omega

/-- Reading back after the increment idiom: the touched key reads one more than
before (with an absent or falsy-zero entry counting as 0), every other key is
untouched. -/
theorem recGet_recIncr (m : StrMap) (k k' : String) :
    recGet (recIncr m k) k' =
      if k = k' then
        some ((recGet m k).getD 0 + 1)
      else recGet m k' := by
  induction m with
  | nil =>
      have h1 : recIncr ([] : StrMap) k = ([(k, 1)] : List (String × Nat)) := rfl
      rw [h1, recGet_cons, recGet_nil, recGet_nil]
      by_cases h : k = k'
      · simp [h]
      · have hb : ¬ (k == k') = true := by simpa using h
        simp [hb, h]
  | cons p rest ih =>
      obtain ⟨k₀, v₀⟩ := p
      by_cases h0 : (k₀ == k) = true
      · have hk : k₀ = k := by simpa using h0
        subst hk
        rw [recIncr_cons_eq, recGet_cons, recGet_cons, recGet_cons]
        by_cases h' : (k₀ == k') = true
        · have hk' : k₀ = k' := by simpa using h'
          simp only [h', if_true, hk']
          by_cases hv : v₀ = 0 <;> simp [hv]
        · have hne : ¬ k₀ = k' := by simpa using h'
          simp [h', hne]
      · have hne : ¬ k₀ = k := by simpa using h0
        rw [recIncr_cons_ne k₀ k v₀ rest h0, recGet_cons, recGet_cons, recGet_cons]
        by_cases hc : (k₀ == k') = true
        · have hk' : k₀ = k' := by simpa using hc
          have hkk' : ¬ k = k' := by
            intro hkk
            exact hne (by rw [hk', hkk])
          simp [hc, hkk']
        · simp [hc, ih, h0]

/-! ## Threat record (`threatSlice.ts`, `Threat` interface) -/

/-- `severity: 'critical' | 'high' | 'medium' | 'low' | 'info'`. -/
inductive Severity
  | critical
  | high
  | medium
  | low
  | info
deriving DecidableEq, Repr

/-- The JS string literal of a severity (used as an aggregate-map key). -/
def Severity.str : Severity → String
  | .critical => "critical"
  | .high => "high"
  | .medium => "medium"
  | .low => "low"
  | .info => "info"

/-- `status: 'active' | 'mitigated' | 'investigating' | 'resolved'`. -/
inductive Status
  | active
  | mitigated
  | investigating
  | resolved
deriving DecidableEq, Repr

/-- The JS string literal of a status (used as an aggregate-map key). -/
def Status.str : Status → String
  | .active => "active"
  | .mitigated => "mitigated"
  | .investigating => "investigating"
  | .resolved => "resolved"

/-- The `Threat` interface. `details: Record<string, any>` is modelled as an
opaque key/value list; `confidence` as a rational. -/
structure Threat where
  id : String
  type : String
  severity : Severity
  source : String
  target : String
  timestamp : String
  status : Status
  description : String
  details : List (String × String)
  confidence : ℚ
deriving DecidableEq, Repr

/-! ## Threat-map graph data (`ThreatMap.tsx`)

Node ids in the source are the template strings `asset-${i}` / `threat-${i}`;
they are modelled by a two-constructor type (the JS encoding is injective, so
id equality coincides). -/

inductive NodeId
  | asset (i : Nat)
  | threat (i : Nat)
deriving DecidableEq, Repr

/-- The two node object shapes pushed by `generateMockThreatMapData`. -/
inductive GraphNode
  | assetNode (id : NodeId) (name : String) (assetType : String)
      (value : ℚ) (color : String)
  | threatNode (id : NodeId) (name : String) (threatType : String)
      (severity : String) (value : ℚ) (color : String)
deriving DecidableEq, Repr

/-- The link object shape pushed by `generateMockThreatMapData`. -/
structure GraphLink where
  source : NodeId
  target : NodeId
  value : ℚ
  color : String
deriving DecidableEq, Repr

/-- The `{ nodes, links }` pair returned by the generator and carried by the
`fetchThreatMapSuccess` payload. -/
structure ThreatMapData where
  nodes : List GraphNode
  links : List GraphLink
deriving DecidableEq, Repr

/-! ## Threat slice state (`threatSlice.ts`, `ThreatState`) -/

/-- The nested `threatMap` member of the threat slice. -/
structure ThreatMapSub where
  nodes : List GraphNode
  links : List GraphLink
  loading : Bool
deriving DecidableEq, Repr

/-- The `ThreatState` interface. -/
structure ThreatState where
  threats : List Threat
  activeThreats : Nat
  loading : Bool
  error : Option String
  selectedThreat : Option Threat
  threatsByCategory : StrMap
  threatsBySeverity : StrMap
  threatsByStatus : StrMap
  threatMap : ThreatMapSub
deriving DecidableEq, Repr

/-- `initialState` of the threat slice. -/
def threatInitialState : ThreatState where
  threats := []
  activeThreats := 0
  loading := false
  error := none
  selectedThreat := none
  threatsByCategory := []
  threatsBySeverity := []
  threatsByStatus := []
  threatMap := { nodes := [], links := [], loading := false }

/-- The `action.payload.forEach` loop of `fetchThreatsSuccess` restricted to
one of the three counter objects it fills. -/
def countByKey (key : Threat → String) (ts : List Threat) : StrMap :=
  ts.foldl (fun m t => recIncr m (key t)) ([] : StrMap)

/-- Reducer `fetchThreatsStart`. -/
def fetchThreatsStart (s : ThreatState) : ThreatState :=
  { s with loading := true, error := none }

/-- Reducer `fetchThreatsSuccess`: replaces the collection, recomputes
`activeThreats` and all three aggregate maps from the payload. -/
def fetchThreatsSuccess (payload : List Threat) (s : ThreatState) : ThreatState :=
  { s with
    threats := payload
    loading := false
    activeThreats := (payload.filter (fun t => t.status == Status.active)).length
    threatsByCategory := countByKey (fun t => t.type) payload
    threatsBySeverity := countByKey (fun t => t.severity.str) payload
    threatsByStatus := countByKey (fun t => t.status.str) payload }

/-- Reducer `fetchThreatsFailure`. -/
def fetchThreatsFailure (payload : String) (s : ThreatState) : ThreatState :=
  { s with loading := false, error := some payload }

/-- Reducer `selectThreat`: `state.threats.find(...) || null`. -/
def selectThreat (payload : String) (s : ThreatState) : ThreatState :=
  { s with selectedThreat := s.threats.find? (fun t => t.id == payload) }

/-- Reducer `clearSelectedThreat`. -/
def clearSelectedThreat (s : ThreatState) : ThreatState :=
  { s with selectedThreat := none }

/-- Reducer `updateThreatStatus`: a no-op when `findIndex` yields `-1`
(modelled as `findIdx? = none`); otherwise mutates the found threat's status,
recomputes `activeThreats` and the by-status map from the full collection, and
keeps the selection's copy in sync. The inner `none` branch of the indexed
read is unreachable because `findIdx?` returns an in-bounds index. -/
def updateThreatStatus (id : String) (st : Status) (s : ThreatState) : ThreatState :=
  match s.threats.findIdx? (fun t => t.id == id) with
  | none => s
  | some i =>
      let threats' :=
        match s.threats[i]? with
        | some t => s.threats.set i { t with status := st }
        | none => s.threats
      { s with
        threats := threats'
        activeThreats := (threats'.filter (fun t => t.status == Status.active)).length
        threatsByStatus := countByKey (fun t => t.status.str) threats'
        selectedThreat :=
          match s.selectedThreat with
          | some sel => if sel.id == id then some { sel with status := st } else some sel
          | none => none }

/-- Reducer `fetchThreatMapStart`: only flips the nested loading flag. -/
def fetchThreatMapStart (s : ThreatState) : ThreatState :=
  { s with threatMap := { s.threatMap with loading := true } }

/-- Reducer `fetchThreatMapSuccess`. -/
def fetchThreatMapSuccess (payload : ThreatMapData) (s : ThreatState) : ThreatState :=
  { s with threatMap := { nodes := payload.nodes, links := payload.links, loading := false } }

/-- Reducer `fetchThreatMapFailure`: carries no payload and only flips the
nested loading flag. -/
def fetchThreatMapFailure (s : ThreatState) : ThreatState :=
  { s with threatMap := { s.threatMap with loading := false } }

/-- Reducer `addNewThreat`: prepends (`unshift`), bumps `activeThreats` for an
active arrival, and applies the counter-increment idiom to each of the three
aggregate maps. -/
def addNewThreat (t : Threat) (s : ThreatState) : ThreatState :=
  { s with
    threats := t :: s.threats
    activeThreats := if t.status == Status.active then s.activeThreats + 1 else s.activeThreats
    threatsByCategory := recIncr s.threatsByCategory t.type
    threatsBySeverity := recIncr s.threatsBySeverity t.severity.str
    threatsByStatus := recIncr s.threatsByStatus t.status.str }

/-- The action objects of the threat slice. -/
inductive ThreatAction
  | fetchThreatsStart
  | fetchThreatsSuccess (payload : List Threat)
  | fetchThreatsFailure (payload : String)
  | selectThreat (payload : String)
  | clearSelectedThreat
  | updateThreatStatus (id : String) (st : Status)
  | fetchThreatMapStart
  | fetchThreatMapSuccess (payload : ThreatMapData)
  | fetchThreatMapFailure
  | addNewThreat (payload : Threat)

/-- The threat slice reducer: dispatch one action. -/
def threatStep (a : ThreatAction) (s : ThreatState) : ThreatState :=
  match a with
  | .fetchThreatsStart => fetchThreatsStart s
  | .fetchThreatsSuccess p => fetchThreatsSuccess p s
  | .fetchThreatsFailure p => fetchThreatsFailure p s
  | .selectThreat p => selectThreat p s
  | .clearSelectedThreat => clearSelectedThreat s
  | .updateThreatStatus id st => updateThreatStatus id st s
  | .fetchThreatMapStart => fetchThreatMapStart s
  | .fetchThreatMapSuccess p => fetchThreatMapSuccess p s
  | .fetchThreatMapFailure => fetchThreatMapFailure s
  | .addNewThreat p => addNewThreat p s

/-- Dispatch a sequence of threat-slice actions in order. -/
def threatRun (acts : List ThreatAction) (s : ThreatState) : ThreatState :=
  acts.foldl (fun s a => threatStep a s) s

/-- The aggregate-consistency invariant of the threat slice: each of the three
counter maps sums to the number of threats. -/
def threatInv (s : ThreatState) : Prop :=
  sumVals s.threatsByCategory = s.threats.length ∧
  sumVals s.threatsBySeverity = s.threats.length ∧
  sumVals s.threatsByStatus = s.threats.length

theorem sumVals_nil : sumVals ([] : StrMap) = 0 := rfl

theorem sumVals_foldl_recIncr (key : Threat → String) (ts : List Threat) :
    ∀ m0 : StrMap,
      sumVals (ts.foldl (fun m t => recIncr m (key t)) m0) = sumVals m0 + ts.length := by
  induction ts with
  | nil =>
      intro m0
      simp
  | cons t ts ih =>
      intro m0
      rw [List.foldl_cons, ih, sumVals_recIncr]
      simp
      omega

/-- Each counter map built by the `forEach` loop sums to the collection
length. -/
theorem sumVals_countByKey (key : Threat → String) (ts : List Threat) :
    sumVals (countByKey key ts) = ts.length := by
  unfold countByKey
  rw [sumVals_foldl_recIncr, sumVals_nil]
  omega

theorem updateThreatStatus_threats_length (id : String) (st : Status)
    (s : ThreatState) :
    (updateThreatStatus id st s).threats.length = s.threats.length := by
  unfold updateThreatStatus
  cases hidx : s.threats.findIdx? (fun t => t.id == id) with
  | none => rfl
  | some i =>
      cases hget : s.threats[i]? with
      | none => simp [hget]
      | some t => simp [hget]

theorem threatInv_step (a : ThreatAction) (s : ThreatState) (h : threatInv s) :
    threatInv (threatStep a s) := by
  obtain ⟨h1, h2, h3⟩ := h
  cases a with
  | fetchThreatsStart => exact ⟨h1, h2, h3⟩
  | fetchThreatsSuccess p =>
      exact ⟨sumVals_countByKey _ p, sumVals_countByKey _ p, sumVals_countByKey _ p⟩
  | fetchThreatsFailure p => exact ⟨h1, h2, h3⟩
  | selectThreat p => exact ⟨h1, h2, h3⟩
  | clearSelectedThreat => exact ⟨h1, h2, h3⟩
  | updateThreatStatus id st =>
      have hlen := updateThreatStatus_threats_length id st s
      show threatInv (updateThreatStatus id st s)
      unfold updateThreatStatus at hlen ⊢
      cases hidx : s.threats.findIdx? (fun t => t.id == id) with
      | none => exact ⟨h1, h2, h3⟩
      | some i =>
          rw [hidx] at hlen
          refine ⟨?_, ?_, ?_⟩
          · simpa [hlen] using h1
          · simpa [hlen] using h2
          · simpa using sumVals_countByKey (fun t => t.status.str) _
  | fetchThreatMapStart => exact ⟨h1, h2, h3⟩
  | fetchThreatMapSuccess p => exact ⟨h1, h2, h3⟩
  | fetchThreatMapFailure => exact ⟨h1, h2, h3⟩
  | addNewThreat p =>
      refine ⟨?_, ?_, ?_⟩ <;>
        simp [threatStep, addNewThreat, sumVals_recIncr, h1, h2, h3]

theorem threatInv_run (acts : List ThreatAction) :
    ∀ s : ThreatState, threatInv s → threatInv (threatRun acts s) := by
  induction acts with
  | nil =>
      intro s h
      exact h
  | cons a acts ih =>
      intro s h
      exact ih (threatStep a s) (threatInv_step a s h)

/-- C1: for every state reachable from the threat slice's initial state under
any sequence of its actions (`fetchThreatsSuccess`, `updateThreatStatus`,
`addNewThreat`, `selectThreat`, `clearSelectedThreat`, the threat-map actions,
and also the remaining fetch actions), the values of each of the three
aggregate maps (`threatsByCategory`, `threatsBySeverity`, `threatsByStatus`)
sum to the length of the `threats` array. -/
theorem C1_aggregate_sums_reachable (acts : List ThreatAction) :
    sumVals (threatRun acts threatInitialState).threatsByCategory
        = (threatRun acts threatInitialState).threats.length ∧
    sumVals (threatRun acts threatInitialState).threatsBySeverity
        = (threatRun acts threatInitialState).threats.length ∧
    sumVals (threatRun acts threatInitialState).threatsByStatus
        = (threatRun acts threatInitialState).threats.length :=
  threatInv_run acts threatInitialState ⟨rfl, rfl, rfl⟩

/-- C2: dispatching `updateThreatStatus` for an id that is present in the
collection leaves `activeThreats` equal to the recomputed count of `active`
threats, `threatsByStatus` equal to the by-status counter recomputed from the
full collection, and rewrites the status of a selection that carries the same
id (no stale copy). -/
theorem C2_update_status_recomputes (s : ThreatState) (id : String) (st : Status)
    (h : ∃ t ∈ s.threats, t.id = id) :
    (updateThreatStatus id st s).activeThreats =
      ((updateThreatStatus id st s).threats.filter
        (fun t => t.status == Status.active)).length ∧
    (updateThreatStatus id st s).threatsByStatus =
      countByKey (fun t => t.status.str) (updateThreatStatus id st s).threats ∧
    (∀ sel, s.selectedThreat = some sel → sel.id = id →
      (updateThreatStatus id st s).selectedThreat = some { sel with status := st }) := by
  have hex : ∃ t ∈ s.threats, (fun t : Threat => t.id == id) t = true := by
    obtain ⟨t, ht, hid⟩ := h
    exact ⟨t, ht, by simpa using hid⟩
  have hidx := List.findIdx?_eq_some_of_exists hex
  refine ⟨?_, ?_, ?_⟩
  · unfold updateThreatStatus
    rw [hidx]
  · unfold updateThreatStatus
    rw [hidx]
  · intro sel hsel hid
    unfold updateThreatStatus
    rw [hidx]
    simp [hsel, hid]

/-- C7: `addNewThreat` prepends the new threat (index 0, previous threats
following in order), increments `activeThreats` exactly when the arrival's
status is `active`, and bumps the new threat's own key in each of the three
aggregate maps by one (creating it at 1 when absent) while every other key
reads unchanged. -/
theorem C7_add_new_threat (s : ThreatState) (t : Threat) :
    (addNewThreat t s).threats = t :: s.threats ∧
    (addNewThreat t s).activeThreats =
      (if t.status = Status.active then s.activeThreats + 1 else s.activeThreats) ∧
    (∀ k : String, recGet (addNewThreat t s).threatsByCategory k =
      if t.type = k then some ((recGet s.threatsByCategory t.type).getD 0 + 1)
      else recGet s.threatsByCategory k) ∧
    (∀ k : String, recGet (addNewThreat t s).threatsBySeverity k =
      if t.severity.str = k then some ((recGet s.threatsBySeverity t.severity.str).getD 0 + 1)
      else recGet s.threatsBySeverity k) ∧
    (∀ k : String, recGet (addNewThreat t s).threatsByStatus k =
      if t.status.str = k then some ((recGet s.threatsByStatus t.status.str).getD 0 + 1)
      else recGet s.threatsByStatus k) := by
  refine ⟨rfl, ?_, ?_, ?_, ?_⟩
  · by_cases hst : t.status = Status.active <;> simp [addNewThreat, hst]
  · intro k
    exact recGet_recIncr s.threatsByCategory t.type k
  · intro k
    exact recGet_recIncr s.threatsBySeverity t.severity.str k
  · intro k
    exact recGet_recIncr s.threatsByStatus t.status.str k

/-- C10: dispatching `updateThreatStatus` for an id that is absent from the
collection leaves the entire threat slice state unchanged (silent no-op). -/
theorem C10_update_status_missing_id_noop (s : ThreatState) (id : String)
    (st : Status) (h : ∀ t ∈ s.threats, t.id ≠ id) :
    updateThreatStatus id st s = s := by
  have hnone : s.threats.findIdx? (fun t => t.id == id) = none := by
    rw [List.findIdx?_eq_none_iff]
    intro t ht
    simpa using h t ht
  unfold updateThreatStatus
  rw [hnone]

/-- A concrete threat record used to instantiate witness theorems. -/
def sampleThreat : Threat where
  id := "t-1"
  type := "Malware"
  severity := .critical
  source := "10.0.0.1"
  target := "10.0.0.2"
  timestamp := "2025-01-01T00:00:00Z"
  status := .active
  description := "sample threat"
  details := []
  confidence := 9/10

/-- A concrete threat slice state holding `sampleThreat`, with it selected. -/
def sampleThreatState : ThreatState :=
  { threatInitialState with
      threats := [sampleThreat]
      activeThreats := 1
      selectedThreat := some sampleThreat
      threatsByCategory := [("Malware", 1)]
      threatsBySeverity := [("critical", 1)]
      threatsByStatus := [("active", 1)] }

theorem C2_update_status_recomputes_witness :
    (∃ t ∈ sampleThreatState.threats, t.id = "t-1") ∧
    ((updateThreatStatus "t-1" Status.mitigated sampleThreatState).activeThreats =
      ((updateThreatStatus "t-1" Status.mitigated sampleThreatState).threats.filter
        (fun t => t.status == Status.active)).length ∧
    (updateThreatStatus "t-1" Status.mitigated sampleThreatState).threatsByStatus =
      countByKey (fun t => t.status.str)
        (updateThreatStatus "t-1" Status.mitigated sampleThreatState).threats ∧
    (∀ sel, sampleThreatState.selectedThreat = some sel → sel.id = "t-1" →
      (updateThreatStatus "t-1" Status.mitigated sampleThreatState).selectedThreat =
        some { sel with status := Status.mitigated })) :=
  have hx : ∃ t ∈ sampleThreatState.threats, t.id = "t-1" :=
    ⟨sampleThreat, by simp [sampleThreatState], rfl⟩
  ⟨hx, C2_update_status_recomputes sampleThreatState "t-1" Status.mitigated hx⟩

theorem C10_update_status_missing_id_noop_witness :
    (∀ t ∈ sampleThreatState.threats, t.id ≠ "ghost") ∧
    updateThreatStatus "ghost" Status.resolved sampleThreatState = sampleThreatState :=
  have h : ∀ t ∈ sampleThreatState.threats, t.id ≠ "ghost" := by
    intro t ht
    have : t = sampleThreat := by simpa [sampleThreatState] using ht
    subst this
    decide
  ⟨h, C10_update_status_missing_id_noop sampleThreatState "ghost" Status.resolved h⟩

/-! ## Auth slice (`authSlice.ts`) -/

/-- The `User` interface. -/
structure User where
  id : String
  username : String
  email : String
  role : String
  permissions : List String
  lastLogin : String
deriving DecidableEq, Repr

/-- `Partial<User>`: every field optional; present fields override on merge. -/
structure UserPatch where
  id : Option String := none
  username : Option String := none
  email : Option String := none
  role : Option String := none
  permissions : Option (List String) := none
  lastLogin : Option String := none
deriving DecidableEq, Repr

/-- The JS object spread `{ ...state.user, ...action.payload }`. -/
def mergeUser (u : User) (p : UserPatch) : User where
  id := p.id.getD u.id
  username := p.username.getD u.username
  email := p.email.getD u.email
  role := p.role.getD u.role
  permissions := p.permissions.getD u.permissions
  lastLogin := p.lastLogin.getD u.lastLogin

/-- The `AuthState` interface. -/
structure AuthState where
  isAuthenticated : Bool
  isInitializing : Bool
  user : Option User
  token : Option String
  error : Option String
deriving DecidableEq, Repr

/-- `initialState` of the auth slice. -/
def authInitialState : AuthState where
  isAuthenticated := false
  isInitializing := true
  user := none
  token := none
  error := none

/-- The action objects of the auth slice. -/
inductive AuthAction
  | loginStart
  | loginSuccess (user : User) (token : String)
  | loginFailure (payload : String)
  | logout
  | initializeAuth
  | initializeAuthSuccess (user : User) (token : String)
  | initializeAuthFailure
  | updateUserProfile (payload : UserPatch)

/-- The auth slice reducer. -/
def authStep (a : AuthAction) (s : AuthState) : AuthState :=
  match a with
  | .loginStart => { s with isInitializing := true, error := none }
  | .loginSuccess user token =>
      { s with
        isAuthenticated := true
        isInitializing := false
        user := some user
        token := some token
        error := none }
  | .loginFailure payload =>
      { s with
        isAuthenticated := false
        isInitializing := false
        user := none
        token := none
        error := some payload }
  | .logout =>
      { s with
        isAuthenticated := false
        user := none
        token := none
        error := none }
  | .initializeAuth => { s with isInitializing := true }
  | .initializeAuthSuccess user token =>
      { s with
        isAuthenticated := true
        isInitializing := false
        user := some user
        token := some token }
  | .initializeAuthFailure =>
      { s with
        isAuthenticated := false
        isInitializing := false
        user := none
        token := none }
  | .updateUserProfile payload =>
      match s.user with
      | some u => { s with user := some (mergeUser u payload) }
      | none => s

/-- Dispatch a sequence of auth-slice actions in order. -/
def authRun (acts : List AuthAction) (s : AuthState) : AuthState :=
  acts.foldl (fun s a => authStep a s) s

/-- Credential coherence of the auth slice: an authenticated state holds both
credentials, and neither credential is ever present without the other. -/
def authInv (s : AuthState) : Prop :=
  (s.isAuthenticated = true → s.user ≠ none ∧ s.token ≠ none) ∧
  (s.user = none ↔ s.token = none)

theorem authInv_step (a : AuthAction) (s : AuthState) (h : authInv s) :
    authInv (authStep a s) := by
  obtain ⟨h1, h2⟩ := h
  cases a with
  | loginStart => exact ⟨h1, h2⟩
  | loginSuccess user token => exact ⟨fun _ => by simp [authStep], by simp [authStep]⟩
  | loginFailure payload => exact ⟨by simp [authStep], by simp [authStep]⟩
  | logout => exact ⟨by simp [authStep], by simp [authStep]⟩
  | initializeAuth => exact ⟨h1, h2⟩
  | initializeAuthSuccess user token =>
      exact ⟨fun _ => by simp [authStep], by simp [authStep]⟩
  | initializeAuthFailure => exact ⟨by simp [authStep], by simp [authStep]⟩
  | updateUserProfile payload =>
      show authInv (authStep (.updateUserProfile payload) s)
      unfold authStep
      cases hu : s.user with
      | none => exact ⟨h1, h2⟩
      | some u =>
          refine ⟨fun ha => ⟨by simp, ?_⟩, ?_⟩
          · have := (h1 ha).2
            simpa using this
          · rw [hu] at h2
            simp at h2
            simp [h2]

theorem authInv_run (acts : List AuthAction) :
    ∀ s : AuthState, authInv s → authInv (authRun acts s) := by
  induction acts with
  | nil =>
      intro s h
      exact h
  | cons a acts ih =>
      intro s h
      exact ih (authStep a s) (authInv_step a s h)

theorem authRun_init_inv (acts : List AuthAction) :
    authInv (authRun acts authInitialState) :=
  authInv_run acts authInitialState
    ⟨by simp [authInitialState], by simp [authInitialState]⟩

/-- C5: in every auth state reachable from the initial state,
`isAuthenticated = true` implies both `user` and `token` are non-null and the
two are null or non-null together; moreover dispatching `loginFailure` or
`logout` from any state leaves both `user` and `token` null. -/
theorem C5_auth_credential_coherence :
    (∀ acts : List AuthAction,
      ((authRun acts authInitialState).isAuthenticated = true →
        (authRun acts authInitialState).user ≠ none ∧
        (authRun acts authInitialState).token ≠ none) ∧
      ((authRun acts authInitialState).user = none ↔
        (authRun acts authInitialState).token = none)) ∧
    (∀ (s : AuthState) (e : String),
      (authStep (.loginFailure e) s).user = none ∧
      (authStep (.loginFailure e) s).token = none) ∧
    (∀ s : AuthState,
      (authStep .logout s).user = none ∧ (authStep .logout s).token = none) :=
  ⟨fun acts => authRun_init_inv acts,
   fun _ _ => ⟨rfl, rfl⟩,
   fun _ => ⟨rfl, rfl⟩⟩

/-- A concrete user profile used to instantiate witness theorems. -/
def sampleUser : User where
  id := "u-1"
  username := "analyst"
  email := "analyst@example.org"
  role := "admin"
  permissions := ["threats:read", "threats:write"]
  lastLogin := "2025-01-01T00:00:00Z"

theorem C5_auth_credential_coherence_witness :
    (authRun [AuthAction.loginSuccess sampleUser "tok"] authInitialState).isAuthenticated
      = true ∧
    (authRun [AuthAction.loginSuccess sampleUser "tok"] authInitialState).user ≠ none ∧
    (authRun [AuthAction.loginSuccess sampleUser "tok"] authInitialState).token ≠ none :=
  ⟨rfl,
   (C5_auth_credential_coherence.1 [AuthAction.loginSuccess sampleUser "tok"]).1 rfl⟩

/-! ## Settings slice (`settingsSlice.ts`) -/

/-- `theme: 'dark' | 'light' | 'system'`. -/
inductive ThemeMode
  | dark
  | light
  | system
deriving DecidableEq, Repr

/-- `fontSize: 'small' | 'medium' | 'large'`. -/
inductive FontSize
  | small
  | medium
  | large
deriving DecidableEq, Repr

/-- `threatColorMode: 'standard' | 'colorblind' | 'monochrome'`. -/
inductive ThreatColorMode
  | standard
  | colorblind
  | monochrome
deriving DecidableEq, Repr

/-- The `notifications` sub-tree. -/
structure NotificationSettings where
  enabled : Bool
  sound : Bool
  desktop : Bool
  criticalOnly : Bool
deriving DecidableEq, Repr

/-- The `dashboard` sub-tree. -/
structure DashboardSettings where
  refreshInterval : Nat
  defaultView : String
  widgets : List String
  compactMode : Bool
deriving DecidableEq, Repr

/-- The `security` sub-tree. -/
structure SecuritySettings where
  mfaEnabled : Bool
  sessionTimeout : Nat
  ipWhitelist : List String
deriving DecidableEq, Repr

/-- The `display` sub-tree. -/
structure DisplaySettings where
  animationsEnabled : Bool
  highContrastMode : Bool
  fontSize : FontSize
  threatColorMode : ThreatColorMode
deriving DecidableEq, Repr

/-- The `SettingsState` interface. -/
structure SettingsState where
  theme : ThemeMode
  language : String
  notifications : NotificationSettings
  dashboard : DashboardSettings
  security : SecuritySettings
  display : DisplaySettings
deriving DecidableEq, Repr

/-- `initialState` of the settings slice (the documented defaults). -/
def settingsInitialState : SettingsState where
  theme := .dark
  language := "fr"
  notifications := { enabled := true, sound := true, desktop := true, criticalOnly := false }
  dashboard :=
    { refreshInterval := 30
      defaultView := "overview"
      widgets := ["threatSummary", "recentEvents", "systemStatus", "threatMap"]
      compactMode := false }
  security := { mfaEnabled := false, sessionTimeout := 30, ipWhitelist := [] }
  display :=
    { animationsEnabled := true
      highContrastMode := false
      fontSize := .medium
      threatColorMode := .standard }

/-- `Partial<SettingsState['notifications']>`. -/
structure NotificationPatch where
  enabled : Option Bool := none
  sound : Option Bool := none
  desktop : Option Bool := none
  criticalOnly : Option Bool := none
deriving DecidableEq, Repr

/-- `Partial<SettingsState['dashboard']>`. -/
structure DashboardPatch where
  refreshInterval : Option Nat := none
  defaultView : Option String := none
  widgets : Option (List String) := none
  compactMode : Option Bool := none
deriving DecidableEq, Repr

/-- `Partial<SettingsState['security']>`. -/
structure SecurityPatch where
  mfaEnabled : Option Bool := none
  sessionTimeout : Option Nat := none
  ipWhitelist : Option (List String) := none
deriving DecidableEq, Repr

/-- `Partial<SettingsState['display']>`. -/
structure DisplayPatch where
  animationsEnabled : Option Bool := none
  highContrastMode : Option Bool := none
  fontSize : Option FontSize := none
  threatColorMode : Option ThreatColorMode := none
deriving DecidableEq, Repr

/-- Reducer `updateNotificationSettings`:
`state.notifications = { ...state.notifications, ...action.payload }`. -/
def updateNotificationSettings (p : NotificationPatch) (s : SettingsState) : SettingsState :=
  { s with
    notifications :=
      { enabled := p.enabled.getD s.notifications.enabled
        sound := p.sound.getD s.notifications.sound
        desktop := p.desktop.getD s.notifications.desktop
        criticalOnly := p.criticalOnly.getD s.notifications.criticalOnly } }

/-- Reducer `updateDashboardSettings`. -/
def updateDashboardSettings (p : DashboardPatch) (s : SettingsState) : SettingsState :=
  { s with
    dashboard :=
      { refreshInterval := p.refreshInterval.getD s.dashboard.refreshInterval
        defaultView := p.defaultView.getD s.dashboard.defaultView
        widgets := p.widgets.getD s.dashboard.widgets
        compactMode := p.compactMode.getD s.dashboard.compactMode } }

/-- Reducer `updateSecuritySettings`. -/
def updateSecuritySettings (p : SecurityPatch) (s : SettingsState) : SettingsState :=
  { s with
    security :=
      { mfaEnabled := p.mfaEnabled.getD s.security.mfaEnabled
        sessionTimeout := p.sessionTimeout.getD s.security.sessionTimeout
        ipWhitelist := p.ipWhitelist.getD s.security.ipWhitelist } }

/-- Reducer `updateDisplaySettings`. -/
def updateDisplaySettings (p : DisplayPatch) (s : SettingsState) : SettingsState :=
  { s with
    display :=
      { animationsEnabled := p.animationsEnabled.getD s.display.animationsEnabled
        highContrastMode := p.highContrastMode.getD s.display.highContrastMode
        fontSize := p.fontSize.getD s.display.fontSize
        threatColorMode := p.threatColorMode.getD s.display.threatColorMode } }

/-- Reducer `resetSettings`: restores the whole default tree. -/
def resetSettings (_ : SettingsState) : SettingsState :=
  settingsInitialState

/-- C8: each of the four partial-update reducers merges its payload into its
own sub-tree — any field missing from the payload keeps its previous value —
and leaves the other three sub-trees and the top-level `theme` and `language`
untouched. -/
theorem C8_settings_partial_merge (s : SettingsState) :
    (∀ p : NotificationPatch,
      (p.enabled = none →
        (updateNotificationSettings p s).notifications.enabled = s.notifications.enabled) ∧
      (p.sound = none →
        (updateNotificationSettings p s).notifications.sound = s.notifications.sound) ∧
      (p.desktop = none →
        (updateNotificationSettings p s).notifications.desktop = s.notifications.desktop) ∧
      (p.criticalOnly = none →
        (updateNotificationSettings p s).notifications.criticalOnly
          = s.notifications.criticalOnly) ∧
      (updateNotificationSettings p s).theme = s.theme ∧
      (updateNotificationSettings p s).language = s.language ∧
      (updateNotificationSettings p s).dashboard = s.dashboard ∧
      (updateNotificationSettings p s).security = s.security ∧
      (updateNotificationSettings p s).display = s.display) ∧
    (∀ p : DashboardPatch,
      (p.refreshInterval = none →
        (updateDashboardSettings p s).dashboard.refreshInterval
          = s.dashboard.refreshInterval) ∧
      (p.defaultView = none →
        (updateDashboardSettings p s).dashboard.defaultView = s.dashboard.defaultView) ∧
      (p.widgets = none →
        (updateDashboardSettings p s).dashboard.widgets = s.dashboard.widgets) ∧
      (p.compactMode = none →
        (updateDashboardSettings p s).dashboard.compactMode = s.dashboard.compactMode) ∧
      (updateDashboardSettings p s).theme = s.theme ∧
      (updateDashboardSettings p s).language = s.language ∧
      (updateDashboardSettings p s).notifications = s.notifications ∧
      (updateDashboardSettings p s).security = s.security ∧
      (updateDashboardSettings p s).display = s.display) ∧
    (∀ p : SecurityPatch,
      (p.mfaEnabled = none →
        (updateSecuritySettings p s).security.mfaEnabled = s.security.mfaEnabled) ∧
      (p.sessionTimeout = none →
        (updateSecuritySettings p s).security.sessionTimeout = s.security.sessionTimeout) ∧
      (p.ipWhitelist = none →
        (updateSecuritySettings p s).security.ipWhitelist = s.security.ipWhitelist) ∧
      (updateSecuritySettings p s).theme = s.theme ∧
      (updateSecuritySettings p s).language = s.language ∧
      (updateSecuritySettings p s).notifications = s.notifications ∧
      (updateSecuritySettings p s).dashboard = s.dashboard ∧
      (updateSecuritySettings p s).display = s.display) ∧
    (∀ p : DisplayPatch,
      (p.animationsEnabled = none →
        (updateDisplaySettings p s).display.animationsEnabled
          = s.display.animationsEnabled) ∧
      (p.highContrastMode = none →
        (updateDisplaySettings p s).display.highContrastMode
          = s.display.highContrastMode) ∧
      (p.fontSize = none →
        (updateDisplaySettings p s).display.fontSize = s.display.fontSize) ∧
      (p.threatColorMode = none →
        (updateDisplaySettings p s).display.threatColorMode = s.display.threatColorMode) ∧
      (updateDisplaySettings p s).theme = s.theme ∧
      (updateDisplaySettings p s).language = s.language ∧
      (updateDisplaySettings p s).notifications = s.notifications ∧
      (updateDisplaySettings p s).dashboard = s.dashboard ∧
      (updateDisplaySettings p s).security = s.security) := by
  refine ⟨fun p => ⟨?_, ?_, ?_, ?_, rfl, rfl, rfl, rfl, rfl⟩,
          fun p => ⟨?_, ?_, ?_, ?_, rfl, rfl, rfl, rfl, rfl⟩,
          fun p => ⟨?_, ?_, ?_, rfl, rfl, rfl, rfl, rfl⟩,
          fun p => ⟨?_, ?_, ?_, ?_, rfl, rfl, rfl, rfl, rfl⟩⟩ <;>
    intro h <;>
    simp [updateNotificationSettings, updateDashboardSettings,
      updateSecuritySettings, updateDisplaySettings, h]

theorem C8_settings_partial_merge_witness :
    ((NotificationPatch.mk none (some false) none none).enabled = none) ∧
    (updateNotificationSettings (NotificationPatch.mk none (some false) none none)
        settingsInitialState).notifications.enabled
      = settingsInitialState.notifications.enabled ∧
    (updateNotificationSettings (NotificationPatch.mk none (some false) none none)
        settingsInitialState).dashboard = settingsInitialState.dashboard :=
  ⟨rfl,
   ((C8_settings_partial_merge settingsInitialState).1
      (NotificationPatch.mk none (some false) none none)).1 rfl,
   ((C8_settings_partial_merge settingsInitialState).1
      (NotificationPatch.mk none (some false) none none)).2.2.2.2.2.2.1⟩

/-! ## Analytics slice (`analyticsSlice.ts`) -/

/-- `timeRange: '1h' | '24h' | '7d' | '30d' | 'custom'`. -/
inductive TimeRange
  | h1
  | h24
  | d7
  | d30
  | custom
deriving DecidableEq, Repr

/-- The `customTimeRange` member: nullable start and end strings. -/
structure CustomTimeRange where
  start : Option String
  stop : Option String
deriving DecidableEq, Repr

/-- One chart dataset of the threat-trend series. -/
structure TrendDataset where
  label : String
  data : List ℚ
  backgroundColor : String
  borderColor : String
deriving DecidableEq, Repr

/-- `threatTrends.data`. -/
structure TrendsData where
  labels : List String
  datasets : List TrendDataset
deriving DecidableEq, Repr

/-- The `threatTrends` sub-resource. -/
structure ThreatTrendsSub where
  data : TrendsData
  loading : Bool
deriving DecidableEq, Repr

/-- The `systemPerformance` sub-resource. -/
structure SystemPerformanceSub where
  cpu : ℚ
  memory : ℚ
  network : ℚ
  storage : ℚ
  loading : Bool
deriving DecidableEq, Repr

/-- The payload of `fetchSystemPerformanceSuccess`
(`Omit<systemPerformance, 'loading'>`). -/
structure SystemPerformancePayload where
  cpu : ℚ
  memory : ℚ
  network : ℚ
  storage : ℚ
deriving DecidableEq, Repr

/-- The `detectionStats` sub-resource. -/
structure DetectionStatsSub where
  totalDetections : Nat
  falsePositives : Nat
  truePositives : Nat
  accuracy : ℚ
  loading : Bool
deriving DecidableEq, Repr

/-- The payload of `fetchDetectionStatsSuccess`. -/
structure DetectionStatsPayload where
  totalDetections : Nat
  falsePositives : Nat
  truePositives : Nat
  accuracy : ℚ
deriving DecidableEq, Repr

/-- One region record of the geographic distribution. -/
structure Region where
  id : String
  name : String
  count : Nat
  coordinates : ℚ × ℚ
deriving DecidableEq, Repr

/-- The `geographicData` sub-resource. -/
structure GeographicDataSub where
  regions : List Region
  loading : Bool
deriving DecidableEq, Repr

/-- The `AnalyticsState` interface. Note: the slice has a single shared
top-level `error` field; the sub-resources carry only their own `loading`. -/
structure AnalyticsState where
  timeRange : TimeRange
  customTimeRange : CustomTimeRange
  loading : Bool
  error : Option String
  threatTrends : ThreatTrendsSub
  systemPerformance : SystemPerformanceSub
  detectionStats : DetectionStatsSub
  geographicData : GeographicDataSub
deriving DecidableEq, Repr

/-- `initialState` of the analytics slice. -/
def analyticsInitialState : AnalyticsState where
  timeRange := .h24
  customTimeRange := { start := none, stop := none }
  loading := false
  error := none
  threatTrends := { data := { labels := [], datasets := [] }, loading := false }
  systemPerformance := { cpu := 0, memory := 0, network := 0, storage := 0, loading := false }
  detectionStats :=
    { totalDetections := 0, falsePositives := 0, truePositives := 0, accuracy := 0
      loading := false }
  geographicData := { regions := [], loading := false }

/-- Reducer `setTimeRange`: a non-`custom` choice clears the custom pair. -/
def setTimeRange (payload : TimeRange) (s : AnalyticsState) : AnalyticsState :=
  let s' := { s with timeRange := payload }
  if payload ≠ .custom then
    { s' with customTimeRange := { start := none, stop := none } }
  else s'

/-- Reducer `setCustomTimeRange`: installs the pair and forces `custom`. -/
def setCustomTimeRange (payload : CustomTimeRange) (s : AnalyticsState) : AnalyticsState :=
  { s with customTimeRange := payload, timeRange := .custom }

/-- Reducer `fetchThreatTrendsStart`. -/
def fetchThreatTrendsStart (s : AnalyticsState) : AnalyticsState :=
  { s with threatTrends := { s.threatTrends with loading := true }, error := none }

/-- Reducer `fetchThreatTrendsSuccess`. -/
def fetchThreatTrendsSuccess (payload : TrendsData) (s : AnalyticsState) : AnalyticsState :=
  { s with threatTrends := { data := payload, loading := false } }

/-- Reducer `fetchThreatTrendsFailure`: writes the shared `error`. -/
def fetchThreatTrendsFailure (payload : String) (s : AnalyticsState) : AnalyticsState :=
  { s with threatTrends := { s.threatTrends with loading := false }, error := some payload }

/-- Reducer `fetchSystemPerformanceStart`. -/
def fetchSystemPerformanceStart (s : AnalyticsState) : AnalyticsState :=
  { s with systemPerformance := { s.systemPerformance with loading := true }, error := none }

/-- Reducer `fetchSystemPerformanceSuccess`. -/
def fetchSystemPerformanceSuccess (payload : SystemPerformancePayload)
    (s : AnalyticsState) : AnalyticsState :=
  { s with
    systemPerformance :=
      { cpu := payload.cpu
        memory := payload.memory
        network := payload.network
        storage := payload.storage
        loading := false } }

/-- Reducer `fetchSystemPerformanceFailure`: writes the shared `error`. -/
def fetchSystemPerformanceFailure (payload : String) (s : AnalyticsState) : AnalyticsState :=
  { s with
    systemPerformance := { s.systemPerformance with loading := false }
    error := some payload }

/-- Reducer `fetchDetectionStatsStart`. -/
def fetchDetectionStatsStart (s : AnalyticsState) : AnalyticsState :=
  { s with detectionStats := { s.detectionStats with loading := true }, error := none }

/-- Reducer `fetchDetectionStatsSuccess`. -/
def fetchDetectionStatsSuccess (payload : DetectionStatsPayload)
    (s : AnalyticsState) : AnalyticsState :=
  { s with
    detectionStats :=
      { totalDetections := payload.totalDetections
        falsePositives := payload.falsePositives
        truePositives := payload.truePositives
        accuracy := payload.accuracy
        loading := false } }

/-- Reducer `fetchDetectionStatsFailure`: writes the shared `error`. -/
def fetchDetectionStatsFailure (payload : String) (s : AnalyticsState) : AnalyticsState :=
  { s with
    detectionStats := { s.detectionStats with loading := false }
    error := some payload }

/-- Reducer `fetchGeographicDataStart`. -/
def fetchGeographicDataStart (s : AnalyticsState) : AnalyticsState :=
  { s with geographicData := { s.geographicData with loading := true }, error := none }

/-- Reducer `fetchGeographicDataSuccess`. -/
def fetchGeographicDataSuccess (payload : List Region) (s : AnalyticsState) : AnalyticsState :=
  { s with geographicData := { regions := payload, loading := false } }

/-- Reducer `fetchGeographicDataFailure`: writes the shared `error`. -/
def fetchGeographicDataFailure (payload : String) (s : AnalyticsState) : AnalyticsState :=
  { s with
    geographicData := { s.geographicData with loading := false }
    error := some payload }

/-! ## Dashboard slice (dashboard summary, second half of `alertSlice.ts`) -/

/-- The `DashboardData` snapshot shape. -/
structure DashboardData where
  system_status : String
  active_threats : Int
  analyzed_packets : Int
  quantum_vault_status : String
deriving DecidableEq, Repr

/-- `status: 'idle' | 'loading' | 'succeeded' | 'failed'`. -/
inductive DashboardStatus
  | idle
  | loading
  | succeeded
  | failed
deriving DecidableEq, Repr

/-- The `DashboardState` interface. -/
structure DashboardState where
  data : Option DashboardData
  status : DashboardStatus
  error : Option String
deriving DecidableEq, Repr

/-- `initialState` of the dashboard slice. -/
def dashboardInitialState : DashboardState where
  data := none
  status := .idle
  error := none

/-- Extra reducer for `fetchDashboardData.pending`: sets only `status`
(the stored error is left as-is). -/
def fetchDashboardDataPending (s : DashboardState) : DashboardState :=
  { s with status := .loading }

/-- Extra reducer for `fetchDashboardData.fulfilled`. -/
def fetchDashboardDataFulfilled (payload : DashboardData) (s : DashboardState) : DashboardState :=
  { s with status := .succeeded, data := some payload }

/-- Extra reducer for `fetchDashboardData.rejected`. -/
def fetchDashboardDataRejected (message : String) (s : DashboardState) : DashboardState :=
  { s with status := .failed, error := some message }

/-- C6: choosing a non-`custom` time range clears both ends of the custom
pair, and installing a custom pair forces the selector to `custom`. -/
theorem C6_time_range_selector (s : AnalyticsState) :
    (∀ v : TimeRange, v ≠ .custom →
      (setTimeRange v s).customTimeRange.start = none ∧
      (setTimeRange v s).customTimeRange.stop = none) ∧
    (∀ r : CustomTimeRange, (setCustomTimeRange r s).timeRange = .custom) := by
  refine ⟨fun v hv => ?_, fun r => rfl⟩
  simp [setTimeRange, hv]

theorem C6_time_range_selector_witness :
    TimeRange.h1 ≠ TimeRange.custom ∧
    (setTimeRange .h1 analyticsInitialState).customTimeRange.start = none ∧
    (setTimeRange .h1 analyticsInitialState).customTimeRange.stop = none ∧
    (setCustomTimeRange ⟨some "2025-01-01", some "2025-01-31"⟩
      analyticsInitialState).timeRange = .custom :=
  ⟨by decide,
   ((C6_time_range_selector analyticsInitialState).1 .h1 (by decide)).1,
   ((C6_time_range_selector analyticsInitialState).1 .h1 (by decide)).2,
   (C6_time_range_selector analyticsInitialState).2
     ⟨some "2025-01-01", some "2025-01-31"⟩⟩

/-- C4 counterexample: the analytics slice has a single shared `error` field,
so a failure of one sub-resource overwrites the error installed on behalf of a
sibling — here a system-performance failure destroys the error just installed
by a threat-trends failure, contradicting the claim that a failure leaves
every sibling's error unchanged. -/
theorem C4_shared_error_counterexample :
    (fetchThreatTrendsFailure "trends failed" analyticsInitialState).error
      = some "trends failed" ∧
    (fetchSystemPerformanceFailure "perf failed"
        (fetchThreatTrendsFailure "trends failed" analyticsInitialState)).error
      ≠ (fetchThreatTrendsFailure "trends failed" analyticsInitialState).error := by
  exact ⟨rfl, by decide⟩

/-- C4 (amended): each analytics failure reducer installs its message in the
slice's single shared top-level `error` (the sub-resources own no error
field), sets its own sub-resource's loading flag to false, and leaves every
sibling sub-resource's data and loading flag — though not the shared error —
unchanged, along with the time-range selection. -/
theorem C4_amended_failure_frame (s : AnalyticsState) (e : String) :
    ((fetchThreatTrendsFailure e s).error = some e ∧
     (fetchThreatTrendsFailure e s).threatTrends.loading = false ∧
     (fetchThreatTrendsFailure e s).threatTrends.data = s.threatTrends.data ∧
     (fetchThreatTrendsFailure e s).systemPerformance = s.systemPerformance ∧
     (fetchThreatTrendsFailure e s).detectionStats = s.detectionStats ∧
     (fetchThreatTrendsFailure e s).geographicData = s.geographicData ∧
     (fetchThreatTrendsFailure e s).timeRange = s.timeRange ∧
     (fetchThreatTrendsFailure e s).customTimeRange = s.customTimeRange) ∧
    ((fetchSystemPerformanceFailure e s).error = some e ∧
     (fetchSystemPerformanceFailure e s).systemPerformance.loading = false ∧
     (fetchSystemPerformanceFailure e s).systemPerformance.cpu = s.systemPerformance.cpu ∧
     (fetchSystemPerformanceFailure e s).systemPerformance.memory
       = s.systemPerformance.memory ∧
     (fetchSystemPerformanceFailure e s).systemPerformance.network
       = s.systemPerformance.network ∧
     (fetchSystemPerformanceFailure e s).systemPerformance.storage
       = s.systemPerformance.storage ∧
     (fetchSystemPerformanceFailure e s).threatTrends = s.threatTrends ∧
     (fetchSystemPerformanceFailure e s).detectionStats = s.detectionStats ∧
     (fetchSystemPerformanceFailure e s).geographicData = s.geographicData ∧
     (fetchSystemPerformanceFailure e s).timeRange = s.timeRange ∧
     (fetchSystemPerformanceFailure e s).customTimeRange = s.customTimeRange) ∧
    ((fetchDetectionStatsFailure e s).error = some e ∧
     (fetchDetectionStatsFailure e s).detectionStats.loading = false ∧
     (fetchDetectionStatsFailure e s).detectionStats.totalDetections
       = s.detectionStats.totalDetections ∧
     (fetchDetectionStatsFailure e s).detectionStats.falsePositives
       = s.detectionStats.falsePositives ∧
     (fetchDetectionStatsFailure e s).detectionStats.truePositives
       = s.detectionStats.truePositives ∧
     (fetchDetectionStatsFailure e s).detectionStats.accuracy
       = s.detectionStats.accuracy ∧
     (fetchDetectionStatsFailure e s).threatTrends = s.threatTrends ∧
     (fetchDetectionStatsFailure e s).systemPerformance = s.systemPerformance ∧
     (fetchDetectionStatsFailure e s).geographicData = s.geographicData ∧
     (fetchDetectionStatsFailure e s).timeRange = s.timeRange ∧
     (fetchDetectionStatsFailure e s).customTimeRange = s.customTimeRange) ∧
    ((fetchGeographicDataFailure e s).error = some e ∧
     (fetchGeographicDataFailure e s).geographicData.loading = false ∧
     (fetchGeographicDataFailure e s).geographicData.regions
       = s.geographicData.regions ∧
     (fetchGeographicDataFailure e s).threatTrends = s.threatTrends ∧
     (fetchGeographicDataFailure e s).systemPerformance = s.systemPerformance ∧
     (fetchGeographicDataFailure e s).detectionStats = s.detectionStats ∧
     (fetchGeographicDataFailure e s).timeRange = s.timeRange ∧
     (fetchGeographicDataFailure e s).customTimeRange = s.customTimeRange) :=
  ⟨⟨rfl, rfl, rfl, rfl, rfl, rfl, rfl, rfl⟩,
   ⟨rfl, rfl, rfl, rfl, rfl, rfl, rfl, rfl, rfl, rfl, rfl⟩,
   ⟨rfl, rfl, rfl, rfl, rfl, rfl, rfl, rfl, rfl, rfl, rfl⟩,
   ⟨rfl, rfl, rfl, rfl, rfl, rfl, rfl, rfl⟩⟩

/-- C3 counterexample: the threat-map "start" reducer does not clear an
existing error (it only flips the nested loading flag), its "failure" reducer
carries no message and installs none, and the dashboard "pending" case leaves
a stored error in place — all contradicting the claim that every one of the
seven resources clears the error on start and installs one on failure. -/
theorem C3_lifecycle_counterexample :
    (fetchThreatMapStart { threatInitialState with error := some "old" }).error
      ≠ none ∧
    (fetchThreatMapFailure { threatInitialState with error := some "old" }).error
      = some "old" ∧
    (fetchDashboardDataPending
        { dashboardInitialState with error := some "older" }).error ≠ none := by
  refine ⟨by decide, rfl, by decide⟩

/-- C3 (amended): the start/failure halves of the fetch protocol hold as
claimed for five resources — threat list, threat trends, system performance,
detection stats, geographic data — whose start reducers set their loading
flag and clear the (slice-level) error and whose failure reducers drop the
flag and install the carried message. The two exceptions: the dashboard
summary's "pending" sets `status` to loading without clearing a stored error
(its "rejected" does install the message), and the threat-map resource's
start/failure reducers only toggle `threatMap.loading`, never touching any
error (its failure action carries no message at all). -/
theorem C3_amended_fetch_lifecycle (ts : ThreatState) (as : AnalyticsState)
    (ds : DashboardState) (e : String) (d : DashboardData) :
    ((fetchThreatsStart ts).loading = true ∧ (fetchThreatsStart ts).error = none ∧
     (fetchThreatsFailure e ts).loading = false ∧
     (fetchThreatsFailure e ts).error = some e) ∧
    ((fetchThreatTrendsStart as).threatTrends.loading = true ∧
     (fetchThreatTrendsStart as).error = none ∧
     (fetchThreatTrendsFailure e as).threatTrends.loading = false ∧
     (fetchThreatTrendsFailure e as).error = some e) ∧
    ((fetchSystemPerformanceStart as).systemPerformance.loading = true ∧
     (fetchSystemPerformanceStart as).error = none ∧
     (fetchSystemPerformanceFailure e as).systemPerformance.loading = false ∧
     (fetchSystemPerformanceFailure e as).error = some e) ∧
    ((fetchDetectionStatsStart as).detectionStats.loading = true ∧
     (fetchDetectionStatsStart as).error = none ∧
     (fetchDetectionStatsFailure e as).detectionStats.loading = false ∧
     (fetchDetectionStatsFailure e as).error = some e) ∧
    ((fetchGeographicDataStart as).geographicData.loading = true ∧
     (fetchGeographicDataStart as).error = none ∧
     (fetchGeographicDataFailure e as).geographicData.loading = false ∧
     (fetchGeographicDataFailure e as).error = some e) ∧
    ((fetchDashboardDataPending ds).status = .loading ∧
     (fetchDashboardDataPending ds).error = ds.error ∧
     (fetchDashboardDataRejected e ds).status = .failed ∧
     (fetchDashboardDataRejected e ds).error = some e ∧
     (fetchDashboardDataFulfilled d ds).status = .succeeded) ∧
    ((fetchThreatMapStart ts).threatMap.loading = true ∧
     (fetchThreatMapStart ts).error = ts.error ∧
     (fetchThreatMapFailure ts).threatMap.loading = false ∧
     (fetchThreatMapFailure ts).error = ts.error) :=
  ⟨⟨rfl, rfl, rfl, rfl⟩, ⟨rfl, rfl, rfl, rfl⟩, ⟨rfl, rfl, rfl, rfl⟩,
   ⟨rfl, rfl, rfl, rfl⟩, ⟨rfl, rfl, rfl, rfl⟩, ⟨rfl, rfl, rfl, rfl, rfl⟩,
   ⟨rfl, rfl, rfl, rfl⟩⟩

/-! ## Threat-map mock data generator (`ThreatMap.tsx`,
`generateMockThreatMapData`)

`Math.random()` yields a 53-bit dyadic rational `k / 2^53` in `[0, 1)`. The
generator is parametrised by the stream `f : Nat → Nat` of successive
numerators `k` (one per call, consumed left to right in source evaluation
order) together with the index of the next draw. With exact rational
arithmetic, `Math.floor(Math.random() * n)` is `k * n / 2^53` in integer
division, and `Math.random() > 0.7` is `10 * k > 7 * 2^53`; numeric node and
link `value` fields keep their rational expressions. The unbounded
`do`/`while` retry loop choosing an unused target is given explicit fuel; the
generator returns `none` if the fuel is ever exhausted. -/

/-- The denominator `2^53` of a `Math.random()` draw. -/
def randomDenom : Nat := 2 ^ 53

/-- A stream of draws is valid when every numerator is below `2^53`, i.e.
every drawn value lies in `[0, 1)`. -/
def ValidStream (f : Nat → Nat) : Prop :=
  ∀ n, f n < randomDenom

/-- The value of one `Math.random()` call as a rational. -/
def randValue (f : Nat → Nat) (ix : Nat) : ℚ :=
  (f ix : ℚ) / (randomDenom : ℚ)

/-- `Math.floor(Math.random() * n)`, consuming one draw. -/
def randFloorNat (f : Nat → Nat) (n ix : Nat) : Nat × Nat :=
  (f ix * n / randomDenom, ix + 1)

/-- `Math.random() > 0.7`, consuming one draw (exact comparison of
`k / 2^53` with `7 / 10`). -/
def randGtPoint7 (f : Nat → Nat) (ix : Nat) : Bool × Nat :=
  (decide (7 * randomDenom < 10 * f ix), ix + 1)

/-- `const assetTypes = [...]`. -/
def assetTypes : List String :=
  ["Server", "Database", "Firewall", "Router", "Endpoint", "Cloud"]

/-- `const assetCount = 15`. -/
def assetCount : Nat := 15

/-- `const threatTypes = [...]`. -/
def threatTypes : List String :=
  ["Malware", "DDoS", "Phishing", "Intrusion", "DataLeak", "Ransomware"]

/-- `const threatCount = 8`. -/
def threatCount : Nat := 8

/-- `const threatSeverities = [...]`. -/
def threatSeverities : List String := ["critical", "high", "medium", "low"]

/-- `theme.palette.info.main` (`theme.tsx`). -/
def themePaletteInfoMain : String := "#8be9fd"

/-- `theme.palette.primary.main` (`theme.tsx`). -/
def themePalettePrimaryMain : String := "#64ffda"

/-- The `switch (severity)` choosing a threat node's color
(`theme.palette.threat.*` from `theme.tsx`, with the `default` branch). -/
def severityColor (severity : String) : String :=
  if severity = "critical" then "#ff5555"
  else if severity = "high" then "#ffb86c"
  else if severity = "medium" then "#f1fa8c"
  else if severity = "low" then "#8be9fd"
  else "#bd93f9"

/-- The first loop: one asset node per `i`, drawing a type index and a value
(`Math.random() * 20 + 10`). Arguments: next node index `i`, remaining count,
next draw index. -/
def genAssetNodes (f : Nat → Nat) : Nat → Nat → Nat → List GraphNode × Nat
  | _, 0, ix => ([], ix)
  | i, n + 1, ix =>
      let rt := randFloorNat f assetTypes.length ix
      let ty := assetTypes.getD rt.1 ""
      let node := GraphNode.assetNode (.asset i) (ty ++ "-" ++ toString i) ty
        (randValue f rt.2 * 20 + 10) themePaletteInfoMain
      let rest := genAssetNodes f (i + 1) n (rt.2 + 1)
      (node :: rest.1, rest.2)

/-- The `do`/`while` retry loop: draw target indices until one is not in
`usedTargets`, bounded by fuel. -/
def pickTarget (f : Nat → Nat) : Nat → List Nat → Nat → Option (Nat × Nat)
  | 0, _, _ => none
  | fuel + 1, used, ix =>
      let r := randFloorNat f assetCount ix
      if r.1 ∈ used then pickTarget f fuel used r.2 else some r

/-- The inner `for (j …)` loop of one threat: pick an unused target, push a
link (drawing its value `Math.random() * 5 + 1`), and recurse with the target
marked used. -/
def genThreatLinks (f : Nat → Nat) (fuel : Nat) (i : Nat) :
    Nat → List Nat → String → Nat → Option (List GraphLink × Nat)
  | 0, _, _, ix => some ([], ix)
  | j + 1, used, color, ix =>
      match pickTarget f fuel used ix with
      | none => none
      | some r =>
          let link : GraphLink :=
            ⟨.threat i, .asset r.1, randValue f r.2 * 5 + 1, color⟩
          match genThreatLinks f fuel i j (r.1 :: used) color (r.2 + 1) with
          | none => none
          | some rest => some (link :: rest.1, rest.2)

/-- The second loop: one threat node per `i` (drawing type, severity and
value), then `targetAssets = Math.floor(Math.random() * 3) + 1` links to
distinct assets. Returns the threat nodes, all their links in push order, and
the next draw index. -/
def genThreatNodes (f : Nat → Nat) (fuel : Nat) :
    Nat → Nat → Nat → Option (List GraphNode × List GraphLink × Nat)
  | _, 0, ix => some ([], [], ix)
  | i, n + 1, ix =>
      let rt := randFloorNat f threatTypes.length ix
      let ty := threatTypes.getD rt.1 ""
      let rs := randFloorNat f threatSeverities.length rt.2
      let severity := threatSeverities.getD rs.1 ""
      let color := severityColor severity
      let node := GraphNode.threatNode (.threat i) (ty ++ "-" ++ toString i) ty
        severity (randValue f rs.2 * 15 + 5) color
      let rc := randFloorNat f 3 (rs.2 + 1)
      match genThreatLinks f fuel i (rc.1 + 1) [] color rc.2 with
      | none => none
      | some rl =>
          match genThreatNodes f fuel (i + 1) n rl.2 with
          | none => none
          | some rest => some (node :: rest.1, rl.1 ++ rest.2.1, rest.2.2)

/-- The chain link pushed unconditionally for index `i` of the topology loop:
`asset-i → asset-((i+1) % assetCount)` with value 1. -/
def assetChainLink (i : Nat) : GraphLink :=
  ⟨.asset i, .asset ((i + 1) % assetCount), 1, themePalettePrimaryMain⟩

/-- The probabilistic extra cross link `asset-i → asset-t` with value 1. -/
def assetExtraLink (i t : Nat) : GraphLink :=
  ⟨.asset i, .asset t, 1, themePalettePrimaryMain⟩

/-- The third loop (`for (i = 0; i < assetCount - 1; i++)`): a chain link per
`i`, and — when `Math.random() > 0.7` — an extra cross link to a random
target when it differs from `i`. -/
def genAssetLinks (f : Nat → Nat) : Nat → Nat → Nat → List GraphLink × Nat
  | _, 0, ix => ([], ix)
  | i, n + 1, ix =>
      let rb := randGtPoint7 f ix
      if rb.1 then
        let rt := randFloorNat f assetCount rb.2
        let extras := if rt.1 ≠ i then [assetExtraLink i rt.1] else []
        let rest := genAssetLinks f (i + 1) n rt.2
        (assetChainLink i :: (extras ++ rest.1), rest.2)
      else
        let rest := genAssetLinks f (i + 1) n rb.2
        (assetChainLink i :: rest.1, rest.2)

/-- `generateMockThreatMapData`: asset nodes, then threat nodes with their
links, then the asset network topology links. -/
def generateMockThreatMapData (f : Nat → Nat) (fuel : Nat) : Option ThreatMapData :=
  let ra := genAssetNodes f 0 assetCount 0
  match genThreatNodes f fuel 0 threatCount ra.2 with
  | none => none
  | some rt =>
      let rl := genAssetLinks f 0 (assetCount - 1) rt.2.2
      some ⟨ra.1 ++ rt.1, rt.2.1 ++ rl.1⟩

theorem randomDenom_pos : 0 < randomDenom := by
  unfold randomDenom
  positivity

/-- A floor draw `Math.floor(Math.random() * n)` over a valid stream lands
strictly below `n`. -/
theorem randFloorNat_fst_lt (f : Nat → Nat) (hf : ValidStream f) (n ix : Nat)
    (hn : 0 < n) : (randFloorNat f n ix).1 < n := by
  unfold randFloorNat
  have hk := hf ix
  unfold ValidStream at hk
  simp only
  rw [Nat.div_lt_iff_lt_mul randomDenom_pos]
  calc f ix * n < randomDenom * n := (Nat.mul_lt_mul_right hn).mpr hk
    _ = n * randomDenom := Nat.mul_comm _ _

/-- The retry loop only ever returns a target outside `used`, and (over a
valid stream) below `assetCount`. -/
theorem pickTarget_spec (f : Nat → Nat) :
    ∀ fuel used ix r, pickTarget f fuel used ix = some r →
      r.1 ∉ used ∧ (ValidStream f → r.1 < assetCount) := by
  intro fuel
  induction fuel with
  | zero =>
      intro used ix r h
      exact absurd h (by simp [pickTarget])
  | succ fuel ih =>
      intro used ix r h
      simp only [pickTarget] at h
      by_cases hmem : (randFloorNat f assetCount ix).1 ∈ used
      · rw [if_pos hmem] at h
        exact ih used (randFloorNat f assetCount ix).2 r h
      · rw [if_neg hmem] at h
        injection h with h
        subst h
        exact ⟨hmem, fun hf => randFloorNat_fst_lt f hf assetCount ix (by decide)⟩

/-- The per-threat link loop produces exactly `j` links, all sourced at the
given threat, targeting pairwise-distinct assets outside `used` (below
`assetCount` over a valid stream). -/
theorem genThreatLinks_spec (f : Nat → Nat) (fuel i : Nat) :
    ∀ j used color ix res, genThreatLinks f fuel i j used color ix = some res →
      res.1.length = j ∧
      (∀ l ∈ res.1, l.source = NodeId.threat i ∧
        ∃ t, l.target = NodeId.asset t ∧ t ∉ used ∧
          (ValidStream f → t < assetCount)) ∧
      (res.1.map (fun l => l.target)).Nodup := by
  intro j
  induction j with
  | zero =>
      intro used color ix res h
      simp only [genThreatLinks] at h
      injection h with h
      subst h
      simp
  | succ j ih =>
      intro used color ix res h
      simp only [genThreatLinks] at h
      cases hp : pickTarget f fuel used ix with
      | none =>
          rw [hp] at h
          cases h
      | some r =>
          rw [hp] at h
          dsimp only at h
          obtain ⟨hru, hrc⟩ := pickTarget_spec f fuel used ix r hp
          cases hg : genThreatLinks f fuel i j (r.1 :: used) color (r.2 + 1) with
          | none =>
              rw [hg] at h
              cases h
          | some rest =>
              rw [hg] at h
              dsimp only at h
              injection h with h
              subst h
              obtain ⟨hlen, hall, hnodup⟩ := ih (r.1 :: used) color (r.2 + 1) rest hg
              refine ⟨by simp [hlen], ?_, ?_⟩
              · intro l hl
                rcases List.mem_cons.mp hl with hl | hl
                · subst hl
                  exact ⟨rfl, r.1, rfl, hru, hrc⟩
                · obtain ⟨hs, t, ht, htu, htc⟩ := hall l hl
                  exact ⟨hs, t, ht, fun hm => htu (List.mem_cons_of_mem _ hm), htc⟩
              · simp only [List.map_cons]
                rw [List.nodup_cons]
                refine ⟨?_, hnodup⟩
                intro hmem
                obtain ⟨l, hl, hlt⟩ := List.mem_map.mp hmem
                obtain ⟨_, t, ht, htu, _⟩ := hall l hl
                rw [ht] at hlt
                have : t = r.1 := by
                  injection hlt
                subst this
                exact htu (List.mem_cons_self _ _)

/-- Decomposition of the threat loop's links: every link is sourced at one of
the generated threats, and per threat the links number `1–3` (the upper bound
over a valid stream) with pairwise-distinct asset targets. -/
theorem genThreatNodes_links_spec (f : Nat → Nat) (fuel : Nat) :
    ∀ n i ix res, genThreatNodes f fuel i n ix = some res →
      (∀ l ∈ res.2.1, ∃ k, i ≤ k ∧ k < i + n ∧ l.source = NodeId.threat k) ∧
      (∀ k, i ≤ k → k < i + n →
        1 ≤ (res.2.1.filter (fun l => l.source == NodeId.threat k)).length ∧
        (ValidStream f →
          (res.2.1.filter (fun l => l.source == NodeId.threat k)).length ≤ 3) ∧
        ((res.2.1.filter (fun l => l.source == NodeId.threat k)).map
          (fun l => l.target)).Nodup ∧
        (∀ l ∈ res.2.1.filter (fun l => l.source == NodeId.threat k),
          ∃ t, l.target = NodeId.asset t ∧ (ValidStream f → t < assetCount))) := by
  intro n
  induction n with
  | zero =>
      intro i ix res h
      simp only [genThreatNodes] at h
      injection h with h
      subst h
      constructor
      · intro l hl
        simp at hl
      · intro k hk1 hk2
        omega
  | succ n ih =>
      intro i ix res h
      simp only [genThreatNodes] at h
      cases hg : genThreatLinks f fuel i
          ((randFloorNat f 3 ((randFloorNat f threatSeverities.length
            (randFloorNat f threatTypes.length ix).2).2 + 1)).1 + 1) []
          (severityColor (threatSeverities.getD
            (randFloorNat f threatSeverities.length
              (randFloorNat f threatTypes.length ix).2).1 ""))
          (randFloorNat f 3 ((randFloorNat f threatSeverities.length
            (randFloorNat f threatTypes.length ix).2).2 + 1)).2 with
      | none =>
          rw [hg] at h
          cases h
      | some rl =>
          rw [hg] at h
          dsimp only at h
          cases hr : genThreatNodes f fuel (i + 1) n rl.2 with
          | none =>
              rw [hr] at h
              cases h
          | some rest =>
              rw [hr] at h
              dsimp only at h
              injection h with h
              subst h
              obtain ⟨hlen, hall, hnodup⟩ := genThreatLinks_spec f fuel i _ _ _ _ _ hg
              obtain ⟨ihsrc, ihper⟩ := ih (i + 1) rl.2 rest hr
              have hsrc_rl : ∀ l ∈ rl.1, l.source = NodeId.threat i :=
                fun l hl => (hall l hl).1
              constructor
              · intro l hl
                simp only at hl
                rcases List.mem_append.mp hl with hl | hl
                · exact ⟨i, le_refl i, by omega, hsrc_rl l hl⟩
                · obtain ⟨k, hk1, hk2, hk3⟩ := ihsrc l hl
                  exact ⟨k, by omega, by omega, hk3⟩
              · intro k hk1 hk2
                by_cases hki : k = i
                · subst hki
                  have hfilter_rl : rl.1.filter
                      (fun l => l.source == NodeId.threat k) = rl.1 := by
                    rw [List.filter_eq_self]
                    intro l hl
                    rw [hsrc_rl l hl]
                    simp
                  have hfilter_rest : rest.2.1.filter
                      (fun l => l.source == NodeId.threat k) = [] := by
                    rw [List.filter_eq_nil_iff]
                    intro l hl
                    obtain ⟨k', hk'1, _, hk'3⟩ := ihsrc l hl
                    rw [hk'3]
                    simp
                    omega
                  simp only [List.filter_append, hfilter_rl, hfilter_rest,
                    List.append_nil]
                  refine ⟨by omega, fun hf => ?_, hnodup, fun l hl => ?_⟩
                  · have h3 : (randFloorNat f 3 ((randFloorNat f
                        threatSeverities.length (randFloorNat f
                        threatTypes.length ix).2).2 + 1)).1 < 3 :=
                      randFloorNat_fst_lt f hf 3 _ (by decide)
                    omega
                  · obtain ⟨_, t, ht, _, htc⟩ := hall l hl
                    exact ⟨t, ht, htc⟩
                · have hfilter_rl : rl.1.filter
                      (fun l => l.source == NodeId.threat k) = [] := by
                    rw [List.filter_eq_nil_iff]
                    intro l hl
                    rw [hsrc_rl l hl]
                    simp
                    omega
                  simp only [List.filter_append, hfilter_rl, List.nil_append]
                  exact ihper k (by omega) (by omega)

/-- The topology loop: it always pushes the chain link for every index it
visits, and every link it pushes is either a chain link or a valid extra
cross link. -/
theorem genAssetLinks_spec (f : Nat → Nat) :
    ∀ n i ix,
      (∀ j, i ≤ j → j < i + n →
        assetChainLink j ∈ (genAssetLinks f i n ix).1) ∧
      (∀ l ∈ (genAssetLinks f i n ix).1,
        (∃ j, i ≤ j ∧ j < i + n ∧ l = assetChainLink j) ∨
        (∃ j t, i ≤ j ∧ j < i + n ∧ t ≠ j ∧ (ValidStream f → t < assetCount) ∧
          l = assetExtraLink j t)) := by
  intro n
  induction n with
  | zero =>
      intro i ix
      constructor
      · intro j hj1 hj2
        omega
      · intro l hl
        simp [genAssetLinks] at hl
  | succ n ih =>
      intro i ix
      constructor
      · intro j hj1 hj2
        simp only [genAssetLinks]
        by_cases hb : (randGtPoint7 f ix).1 = true
        · rw [if_pos hb]
          rcases Nat.eq_or_lt_of_le hj1 with hj | hj
          · subst hj
            exact List.mem_cons_self _ _
          · refine List.mem_cons_of_mem _ (List.mem_append_right _ ?_)
            exact ((ih (i + 1) (randFloorNat f assetCount
              (randGtPoint7 f ix).2).2).1 j hj (by omega))
        · rw [if_neg hb]
          rcases Nat.eq_or_lt_of_le hj1 with hj | hj
          · subst hj
            exact List.mem_cons_self _ _
          · exact List.mem_cons_of_mem _
              ((ih (i + 1) (randGtPoint7 f ix).2).1 j hj (by omega))
      · intro l hl
        simp only [genAssetLinks] at hl
        by_cases hb : (randGtPoint7 f ix).1 = true
        · rw [if_pos hb] at hl
          rcases List.mem_cons.mp hl with hl | hl
          · exact Or.inl ⟨i, le_refl i, by omega, hl⟩
          · rcases List.mem_append.mp hl with hl | hl
            · by_cases hne : (randFloorNat f assetCount
                  (randGtPoint7 f ix).2).1 ≠ i
              · rw [if_pos hne] at hl
                have : l = assetExtraLink i
                    (randFloorNat f assetCount (randGtPoint7 f ix).2).1 := by
                  simpa using hl
                exact Or.inr ⟨i, _, le_refl i, by omega, hne,
                  fun hf => randFloorNat_fst_lt f hf assetCount _ (by decide),
                  this⟩
              · rw [if_neg hne] at hl
                simp at hl
            · rcases (ih (i + 1) (randFloorNat f assetCount
                  (randGtPoint7 f ix).2).2).2 l hl with
                ⟨j, hj1, hj2, hj3⟩ | ⟨j, t, hj1, hj2, hj3, hj4, hj5⟩
              · exact Or.inl ⟨j, by omega, by omega, hj3⟩
              · exact Or.inr ⟨j, t, by omega, by omega, hj3, hj4, hj5⟩
        · rw [if_neg hb] at hl
          rcases List.mem_cons.mp hl with hl | hl
          · exact Or.inl ⟨i, le_refl i, by omega, hl⟩
          · rcases (ih (i + 1) (randGtPoint7 f ix).2).2 l hl with
              ⟨j, hj1, hj2, hj3⟩ | ⟨j, t, hj1, hj2, hj3, hj4, hj5⟩
            · exact Or.inl ⟨j, by omega, by omega, hj3⟩
            · exact Or.inr ⟨j, t, by omega, by omega, hj3, hj4, hj5⟩

/-- C9 counterexample: on the all-zero draw stream the generator succeeds, yet
no link joins `asset-14` and `asset-0` in either direction, and exactly one
link of the whole graph touches `asset-14` at all (the chain link from
`asset-13`). A node of degree one lies on no closed cycle, so the asset nodes
do not form a ring: the topology loop stops at `assetCount - 2` and never
emits the closing link. -/
theorem C9_ring_counterexample :
    (generateMockThreatMapData (fun _ => 0) 1).isSome = true ∧
    (generateMockThreatMapData (fun _ => 0) 1).map
      (fun d => d.links.any (fun l =>
        (l.source == NodeId.asset 14 && l.target == NodeId.asset 0) ||
        (l.source == NodeId.asset 0 && l.target == NodeId.asset 14)))
      = some false ∧
    (generateMockThreatMapData (fun _ => 0) 1).map
      (fun d => (d.links.filter (fun l =>
        l.source == NodeId.asset 14 || l.target == NodeId.asset 14)).length)
      = some 1 :=
  ⟨by decide, by decide, by decide⟩

/-- C9 (amended): for every valid draw stream on which the generator
succeeds, each of the eight threat nodes is linked to between 1 and 3
pairwise-distinct asset nodes (never a repeated target), and the asset nodes
form an open chain — the chain link `asset-j → asset-(j+1)` is present for
every `j < assetCount - 1`, and every asset-sourced link is either such a
chain link or an extra cross link to a different asset — not a closed ring:
no iteration produces the link closing `asset-(assetCount-1)` back to
`asset-0`. -/
theorem C9_amended_generator_topology (f : Nat → Nat) (fuel : Nat)
    (d : ThreatMapData) (hf : ValidStream f)
    (h : generateMockThreatMapData f fuel = some d) :
    (∀ i, i < threatCount →
      1 ≤ (d.links.filter (fun l => l.source == NodeId.threat i)).length ∧
      (d.links.filter (fun l => l.source == NodeId.threat i)).length ≤ 3 ∧
      ((d.links.filter (fun l => l.source == NodeId.threat i)).map
        (fun l => l.target)).Nodup ∧
      (∀ l ∈ d.links.filter (fun l => l.source == NodeId.threat i),
        ∃ t, l.target = NodeId.asset t ∧ t < assetCount)) ∧
    (∀ j, j < assetCount - 1 → assetChainLink j ∈ d.links) ∧
    (∀ l ∈ d.links, (∃ a, l.source = NodeId.asset a) →
      (∃ j, j < assetCount - 1 ∧ l = assetChainLink j) ∨
      (∃ j t, j < assetCount - 1 ∧ t ≠ j ∧ t < assetCount ∧
        l = assetExtraLink j t)) := by
  unfold generateMockThreatMapData at h
  dsimp only at h
  cases hg : genThreatNodes f fuel 0 threatCount (genAssetNodes f 0 assetCount 0).2 with
  | none =>
      rw [hg] at h
      cases h
  | some rt =>
      rw [hg] at h
      dsimp only at h
      injection h with h
      subst h
      obtain ⟨hsrc, hper⟩ :=
        genThreatNodes_links_spec f fuel threatCount 0 _ rt hg
      obtain ⟨hchain, hmem⟩ := genAssetLinks_spec f (assetCount - 1) 0 rt.2.2
      have hac : assetCount = 15 := rfl
      have haf : ∀ l ∈ (genAssetLinks f 0 (assetCount - 1) rt.2.2).1,
          ∃ a, l.source = NodeId.asset a := by
        intro l hl
        rcases hmem l hl with ⟨j, _, _, hj⟩ | ⟨j, t, _, _, _, _, hj⟩
        · exact ⟨j, by rw [hj]; rfl⟩
        · exact ⟨j, by rw [hj]; rfl⟩
      refine ⟨?_, ?_, ?_⟩
      · intro i hi
        have hfa : (genAssetLinks f 0 (assetCount - 1) rt.2.2).1.filter
            (fun l => l.source == NodeId.threat i) = [] := by
          rw [List.filter_eq_nil_iff]
          intro l hl
          obtain ⟨a, ha⟩ := haf l hl
          rw [ha]
          simp
        obtain ⟨h1, h2, h3, h4⟩ := hper i (Nat.zero_le i) (by omega)
        simp only [List.filter_append, hfa, List.append_nil]
        refine ⟨h1, h2 hf, h3, fun l hl => ?_⟩
        obtain ⟨t, ht1, ht2⟩ := h4 l hl
        exact ⟨t, ht1, ht2 hf⟩
      · intro j hj
        exact List.mem_append_right _ (hchain j (Nat.zero_le j) (by omega))
      · intro l hl hla
        rcases List.mem_append.mp hl with hl | hl
        · obtain ⟨k, _, _, hk⟩ := hsrc l hl
          obtain ⟨a, ha⟩ := hla
          rw [hk] at ha
          cases ha
        · rcases hmem l hl with ⟨j, _, hj2, hj3⟩ | ⟨j, t, _, hj2, hj3, hj4, hj5⟩
          · exact Or.inl ⟨j, by omega, hj3⟩
          · exact Or.inr ⟨j, t, by omega, hj3, hj4 hf, hj5⟩

/-- The all-zero draw stream, used to instantiate the generator witness. -/
def sampleStream : Nat → Nat := fun _ => 0

/-- The generator's output on the all-zero stream. -/
def sampleThreatMapData : ThreatMapData :=
  (generateMockThreatMapData sampleStream 1).getD ⟨[], []⟩

theorem C9_amended_generator_topology_witness :
    ValidStream sampleStream ∧
    generateMockThreatMapData sampleStream 1 = some sampleThreatMapData ∧
    ((∀ i, i < threatCount →
      1 ≤ (sampleThreatMapData.links.filter
        (fun l => l.source == NodeId.threat i)).length ∧
      (sampleThreatMapData.links.filter
        (fun l => l.source == NodeId.threat i)).length ≤ 3 ∧
      ((sampleThreatMapData.links.filter
        (fun l => l.source == NodeId.threat i)).map (fun l => l.target)).Nodup ∧
      (∀ l ∈ sampleThreatMapData.links.filter
          (fun l => l.source == NodeId.threat i),
        ∃ t, l.target = NodeId.asset t ∧ t < assetCount)) ∧
    (∀ j, j < assetCount - 1 → assetChainLink j ∈ sampleThreatMapData.links) ∧
    (∀ l ∈ sampleThreatMapData.links, (∃ a, l.source = NodeId.asset a) →
      (∃ j, j < assetCount - 1 ∧ l = assetChainLink j) ∨
      (∃ j t, j < assetCount - 1 ∧ t ≠ j ∧ t < assetCount ∧
        l = assetExtraLink j t))) :=
  have hf : ValidStream sampleStream := by
    intro n
    show 0 < randomDenom
    decide
  have hd : generateMockThreatMapData sampleStream 1 = some sampleThreatMapData := rfl
  ⟨hf, hd, C9_amended_generator_topology sampleStream 1 sampleThreatMapData hf hd⟩

end Icare
